import Mathlib

/-!
Verification of the voice-capture session controller in
`src/components/VoiceRecognition.tsx`.

The component is embedded shallowly as a small operational semantics:

* `CompState` mirrors the three React state cells
  (`isListening`, `isProcessing`, `error`).
* Each JavaScript handler body is translated line-by-line into a
  `List Action`; an interpreter (`applyAction` / `runActions`) applies the
  actions to a system state that also carries the pending `setTimeout`
  timers and the ordered log of Notifier callbacks.  Each emitted
  notification is recorded together with the component state at the
  moment of emission, so ordering claims ("fired while still Processing")
  are directly expressible.
* `step` / `run` drive a whole timed trace of external events
  (start/stop/press requests, timer firings, adapter callbacks).

State updates (`setIsListening` etc.) are modelled as immediate
assignments, per the specification's state-machine reading of the
component.  Timers are kept in a pending list with absolute due times;
`timerFire` removes the fired timer and runs its callback.  Crucially,
`stopActions` below does NOT touch the pending-timer list, because
`stopListening` in the source never stores or clears the `setTimeout`
handles.
-/

namespace BengkelVoice

/-- The fixed corpus `VOICE_RESPONSES` (source lines 29–36). -/
def VOICE_RESPONSES : List String :=
  ["bagaimana cara ganti oli",
   "kenapa mesin overheat",
   "cara check aki mobil",
   "suara mesin kasar",
   "rem blong penyebabnya",
   "ac mobil tidak dingin"]

/-- The component's React state cells: `isListening`, `isProcessing`,
`error` (source lines 43–45).  `error : Option String` models the
`string | null` cell. -/
structure CompState where
  isListening : Bool
  isProcessing : Bool
  error : Option String
deriving Repr, DecidableEq

/-- Callbacks delivered to the Notifier (the component's props
`onListeningChange` and `onVoiceResult`). -/
inductive Notification where
  | listeningChange (b : Bool)
  | voiceResult (text : String)
deriving Repr, DecidableEq

/-- The two `setTimeout` callbacks of the simulated fallback path
(source lines 144–153). -/
inductive TimerKind where
  | simPhase1
  | simPhase2
deriving Repr, DecidableEq

/-- A pending `setTimeout` registration with its absolute due time. -/
structure Timer where
  kind : TimerKind
  due : Nat
deriving Repr, DecidableEq

/-- System state: component state, pending timers, and the emission log.
Each log entry records the notification together with the component
state at the moment the callback was invoked. -/
structure Sys where
  comp : CompState
  timers : List Timer
  out : List (Notification × CompState)
deriving Repr, DecidableEq

def initSys : Sys := ⟨⟨false, false, none⟩, [], []⟩

/-- Primitive statements appearing in the handler bodies. -/
inductive Action where
  | setListening (b : Bool)
  | setProcessing (b : Bool)
  | setErrorA (e : Option String)
  | notifyListening (b : Bool)
  | notifyResult (text : String)
  | schedule (k : TimerKind) (delay : Nat)
deriving Repr, DecidableEq

def applyAction (now : Nat) (s : Sys) (a : Action) : Sys :=
  match a with
  | .setListening b => { s with comp := { s.comp with isListening := b } }
  | .setProcessing b => { s with comp := { s.comp with isProcessing := b } }
  | .setErrorA e => { s with comp := { s.comp with error := e } }
  | .notifyListening b => { s with out := s.out ++ [(.listeningChange b, s.comp)] }
  | .notifyResult t => { s with out := s.out ++ [(.voiceResult t, s.comp)] }
  | .schedule k d => { s with timers := s.timers ++ [⟨k, now + d⟩] }

def runActions (now : Nat) (as : List Action) (s : Sys) : Sys :=
  as.foldl (applyAction now) s

/-- JavaScript `x || d` on an optional string: `undefined`/`null` and the
empty string are falsy and give the default. -/
def jsOrDefault (m : Option String) (d : String) : String :=
  match m with
  | none => d
  | some s => if s = "" then d else s

/-- JavaScript truthiness of a `string | null` value. -/
def jsTruthy : Option String → Bool
  | none => false
  | some s => s != ""

/-- Which backend the runtime environment selects (web platform without
a speech engine falls through to the simulated path; source lines
114–154 vs 155–165). -/
inductive Backend where
  | simulated
  | browser
  | native
deriving Repr, DecidableEq

/-- Body of `startListening` (source lines 108–154): `setError(null)`
runs before the `isEnabled` guard; an enabled start sets the flags,
notifies `true`, and — on the simulated path only — schedules the
3000 ms phase-1 timer.  (On the browser path `recognition.start()` and
on the native path `Voice.start` are external calls whose later
callbacks are separate trace events.) -/
def startActions (b : Backend) (isEnabled : Bool) : List Action :=
  .setErrorA none ::
    (if isEnabled then
      [.setListening true, .setProcessing false, .notifyListening true] ++
        (match b with
         | .simulated => [.schedule .simPhase1 3000]
         | _ => [])
    else [])

/-- Body of `stopListening` (source lines 169–180).  Note: no
`clearTimeout` — the pending-timer list is untouched. -/
def stopActions : List Action :=
  [.setListening false, .setProcessing false, .notifyListening false]

/-- Bodies of the two simulated `setTimeout` callbacks (source lines
144–153).  The phase-2 callback draws `choice` (the value of
`Math.floor(Math.random() * VOICE_RESPONSES.length)`) at fire time. -/
def timerActions (k : TimerKind) (choice : Nat) : List Action :=
  match k with
  | .simPhase1 =>
      [.setListening false, .setProcessing true, .schedule .simPhase2 1000]
  | .simPhase2 =>
      [.notifyResult (VOICE_RESPONSES.getD choice ""),
       .setProcessing false, .notifyListening false]

/-- Body of the browser `recognition.onresult` handler (source lines
122–129).  `present` models the truthiness of
`event.results && event.results[0] && event.results[0][0]`; when it
holds, the transcript string is forwarded verbatim. -/
def onresultActions (present : Bool) (transcript : String) : List Action :=
  [.setListening false, .setProcessing false, .notifyListening false] ++
    (if present then [.notifyResult transcript] else [])

/-- Body of the browser `recognition.onerror` handler (source lines
130–135): the error code is prefixed verbatim. -/
def onerrorActions (err : String) : List Action :=
  [.setListening false, .setProcessing false,
   .setErrorA (some ("Voice error: " ++ err)), .notifyListening false]

/-- Body of the browser `recognition.onend` handler (source lines
136–140). -/
def onendActions : List Action :=
  [.setListening false, .setProcessing false, .notifyListening false]

/-- Body of the native `Voice.onSpeechResults` handler (source lines
62–69): forwards `e.value[0]` only when `e.value` is present and
non-empty; the string itself is not inspected. -/
def onSpeechResultsActions (value : Option (List String)) : List Action :=
  [.setListening false, .setProcessing false, .notifyListening false] ++
    (match value with
     | some v => if v.length > 0 then [.notifyResult (v.headD "")] else []
     | none => [])

/-- Body of the native `Voice.onSpeechError` handler (source lines
70–75): `e.error?.message || 'Unknown error'`. -/
def onSpeechErrorActions (msg : Option String) : List Action :=
  [.setListening false, .setProcessing false,
   .setErrorA (some ("Voice error: " ++ jsOrDefault msg "Unknown error")),
   .notifyListening false]

/-- Body of the `catch` branch of the native start (source lines
159–164): `e.message || 'Unknown error'`. -/
def nativeStartFailActions (msg : Option String) : List Action :=
  [.setListening false, .setProcessing false,
   .setErrorA (some ("Voice error: " ++ jsOrDefault msg "Unknown error")),
   .notifyListening false]

/-- `getStatusText` (source lines 190–195), with JavaScript truthiness
of the `error` cell. -/
def getStatusText (c : CompState) : String :=
  if jsTruthy c.error then c.error.getD ""
  else if c.isProcessing then "Memproses..."
  else if c.isListening then "Mendengarkan..."
  else "Tekan untuk berbicara"

/-- The status line actually rendered (source line 236):
`isEnabled ? getStatusText() : 'Voice tidak tersedia'`. -/
def displayedStatus (isEnabled : Bool) (c : CompState) : String :=
  if isEnabled then getStatusText c else "Voice tidak tersedia"

/-- External events driving the component.  `start`/`press` carry the
current value of the `isEnabled` prop.  `press` is a tap on the mic
button, which is disabled while `!isEnabled || isProcessing` (source
line 208) and otherwise runs `toggleListening` (source lines 182–188).
`timerFire idx choice` fires the pending timer at index `idx` once due;
the adapter events model the external engines' callbacks. -/
inductive Ev where
  | start (isEnabled : Bool)
  | stop
  | press (isEnabled : Bool)
  | timerFire (idx : Nat) (choice : Nat)
  | browserResult (present : Bool) (transcript : String)
  | browserError (err : String)
  | browserEnd
  | nativeResult (value : Option (List String))
  | nativeError (msg : Option String)
  | nativeStartFail (msg : Option String)
deriving Repr, DecidableEq

def step (b : Backend) (s : Sys) (te : Nat × Ev) : Sys :=
  match te.2 with
  | .start en => runActions te.1 (startActions b en) s
  | .stop => runActions te.1 stopActions s
  | .press en =>
      if en && !s.comp.isProcessing then
        if s.comp.isListening then runActions te.1 stopActions s
        else runActions te.1 (startActions b en) s
      else s
  | .timerFire idx choice =>
      match s.timers.get? idx with
      | some t =>
          if t.due ≤ te.1 then
            runActions te.1 (timerActions t.kind choice)
              { s with timers := s.timers.eraseIdx idx }
          else s
      | none => s
  | .browserResult p t =>
      if b = .browser then runActions te.1 (onresultActions p t) s else s
  | .browserError e =>
      if b = .browser then runActions te.1 (onerrorActions e) s else s
  | .browserEnd =>
      if b = .browser then runActions te.1 onendActions s else s
  | .nativeResult v =>
      if b = .native then runActions te.1 (onSpeechResultsActions v) s else s
  | .nativeError m =>
      if b = .native then runActions te.1 (onSpeechErrorActions m) s else s
  | .nativeStartFail m =>
      if b = .native then runActions te.1 (nativeStartFailActions m) s else s

/-- Run a timed trace from the initial state. -/
def run (b : Backend) (trace : List (Nat × Ev)) : Sys :=
  trace.foldl (step b) initSys

/-- The notifications of a run, in emission order. -/
def notifications (s : Sys) : List Notification :=
  s.out.map Prod.fst

/-- The booleans passed to `onListeningChange` by one handler body. -/
def listeningNotes (as : List Action) : List Bool :=
  as.filterMap (fun a =>
    match a with
    | .notifyListening b => some b
    | _ => none)

/-- Helper: normalized error strings are never empty. -/
theorem voiceErrorNeEmpty (d : String) : ("Voice error: " ++ d) ≠ "" := by
  intro h
  have h2 := congrArg String.length h
  rw [String.length_append] at h2
  have h3 : ("Voice error: " : String).length = 13 := rfl
  have h4 : ("" : String).length = 0 := rfl
  omega

/-- Claim C1: the cancellation race fails on the code.  `stopListening`
(source lines 169–180) never stores or clears the `setTimeout` handles
created on the simulated path (source lines 144–153), so after
`start()` at t=0 and `stop()` at t=0, the phase-1 timer is still
pending, fires at t=3000, schedules phase 2, and at t=4000
`onVoiceResult` is delivered anyway — contradicting the claim that no
`onVoiceResult` call ever occurs after such a stop. -/
theorem c1_stop_does_not_cancel :
    (run .simulated [(0, .start true), (0, .stop)]).timers
      = [⟨.simPhase1, 3000⟩]
    ∧ notifications (run .simulated
        [(0, .start true), (0, .stop), (3000, .timerFire 0 0), (4000, .timerFire 0 0)])
      = [.listeningChange true, .listeningChange false,
         .voiceResult "bagaimana cara ganti oli", .listeningChange false] :=
  ⟨rfl, rfl⟩

/-- Claim C2, counterexample: a native `onSpeechResults` event whose
results list contains the empty transcript `""` passes the
`e.value.length > 0` check (source line 66) and invokes `onVoiceResult`
with the empty string — refuting "onVoiceResult is only ever invoked
with non-empty text". -/
theorem c2_empty_transcript_forwarded :
    notifications (run .native [(0, .start true), (1, .nativeResult (some [""]))])
      = [.listeningChange true, .listeningChange false, .voiceResult ""]
    ∧ Notification.voiceResult ""
        ∈ notifications (run .native [(0, .start true), (1, .nativeResult (some [""]))]) :=
  ⟨rfl, by decide⟩

/-- Claim C2, amended: `onVoiceResult` is skipped exactly when the
adapter delivers no transcript at all (native: `e.value` absent or an
empty array; browser: missing `results[0][0]`); a present transcript is
forwarded verbatim — even empty — with at most one `onVoiceResult` per
`onResult` event, and the flags return to Idle either way. -/
theorem c2_result_forwarding_amended :
    ∀ (s : Sys) (now : Nat) (t x : String) (xs : List String),
      ((runActions now (onSpeechResultsActions none) s).comp
          = ⟨false, false, s.comp.error⟩
        ∧ (runActions now (onSpeechResultsActions none) s).out
          = s.out ++ [(.listeningChange false, ⟨false, false, s.comp.error⟩)])
      ∧ ((runActions now (onSpeechResultsActions (some [])) s).out
          = s.out ++ [(.listeningChange false, ⟨false, false, s.comp.error⟩)])
      ∧ ((runActions now (onSpeechResultsActions (some (x :: xs))) s).out
          = s.out ++ [(.listeningChange false, ⟨false, false, s.comp.error⟩),
                      (.voiceResult x, ⟨false, false, s.comp.error⟩)])
      ∧ ((runActions now (onresultActions false t) s).out
          = s.out ++ [(.listeningChange false, ⟨false, false, s.comp.error⟩)])
      ∧ ((runActions now (onresultActions true t) s).out
          = s.out ++ [(.listeningChange false, ⟨false, false, s.comp.error⟩),
                      (.voiceResult t, ⟨false, false, s.comp.error⟩)]) := by
  intro s now t x xs
  refine ⟨⟨?_, ?_⟩, ?_, ?_, ?_, ?_⟩ <;>
    simp [runActions, applyAction, onSpeechResultsActions, onresultActions]

/-- Claim C3, counterexample: `startListening` (source lines 108–113)
has no session guard, so a second `start()` while already Listening
fires `onListeningChange(true)` again and schedules a second simulated
timer chain — refuting "leaves the state unchanged, instantiates no
second adapter, and produces no callbacks". -/
theorem c3_double_start_not_ignored :
    notifications (run .simulated [(0, .start true), (1, .start true)])
      = [.listeningChange true, .listeningChange true]
    ∧ (run .simulated [(0, .start true), (1, .start true)]).timers
      = [⟨.simPhase1, 3000⟩, ⟨.simPhase1, 3001⟩] :=
  ⟨rfl, rfl⟩

/-- Claim C3, amended: `startListening` itself is unguarded — from a
Listening state a `start()` re-fires `onListeningChange(true)` and
schedules a second phase-1 timer; double sessions are prevented only
externally: a button press is ignored while Processing (the button is
disabled, source line 208), and a press while Listening routes to
`stopListening` (source lines 182–188). -/
theorem c3_reentry_amended :
    ∀ (s : Sys) (now : Nat),
      (s.comp.isListening = true →
          (step .simulated s (now, .start true)).timers
            = s.timers ++ [⟨.simPhase1, now + 3000⟩]
        ∧ (step .simulated s (now, .start true)).out
            = s.out ++ [(.listeningChange true, ⟨true, false, none⟩)])
      ∧ (s.comp.isProcessing = true →
          ∀ en : Bool, step .simulated s (now, .press en) = s)
      ∧ (s.comp.isListening = true → s.comp.isProcessing = false →
          (step .simulated s (now, .press true)).comp = ⟨false, false, s.comp.error⟩
        ∧ (step .simulated s (now, .press true)).out
            = s.out ++ [(.listeningChange false, ⟨false, false, s.comp.error⟩)]
        ∧ (step .simulated s (now, .press true)).timers = s.timers) := by
  intro s now
  refine ⟨?_, ?_, ?_⟩
  · intro _
    constructor <;> simp [step, runActions, applyAction, startActions]
  · intro h en
    simp [step, h]
  · intro h1 h2
    refine ⟨?_, ?_, ?_⟩ <;>
      simp [step, runActions, applyAction, stopActions, h1, h2]

theorem c3_reentry_witness :
    (step .simulated ⟨⟨true, false, none⟩, [], []⟩ (0, .press true)).comp
      = ⟨false, false, none⟩ :=
  ((c3_reentry_amended ⟨⟨true, false, none⟩, [], []⟩ 0).2.2 rfl rfl).1

/-- Claim C4, counterexample: `stopListening` (source lines 169–180)
unconditionally calls `onListeningChange(false)`, so a `stop()` from
Idle fires a Notifier callback — refuting "no Notifier callback". -/
theorem c4_stop_from_idle_fires_callback :
    notifications (run .simulated [(0, .stop)]) = [.listeningChange false]
    ∧ (run .simulated [(0, .stop)]).comp = initSys.comp :=
  ⟨rfl, rfl⟩

/-- Claim C4, amended: `stop()` always resets the two flags, preserves
the stored error and the pending timers, and unconditionally fires one
`onListeningChange(false)` — so from Idle the state is unchanged but a
redundant callback is still emitted. -/
theorem c4_stop_observable :
    ∀ (b : Backend) (s : Sys) (now : Nat),
      ((step b s (now, .stop)).comp = ⟨false, false, s.comp.error⟩
        ∧ (step b s (now, .stop)).timers = s.timers
        ∧ (step b s (now, .stop)).out
            = s.out ++ [(.listeningChange false, ⟨false, false, s.comp.error⟩)])
      ∧ (s.comp.isListening = false → s.comp.isProcessing = false →
          (step b s (now, .stop)).comp = s.comp) := by
  intro b s now
  obtain ⟨⟨l, p, e⟩, tm, outs⟩ := s
  refine ⟨⟨?_, ?_, ?_⟩, ?_⟩ <;>
    simp [step, runActions, applyAction, stopActions]
  intro h1 h2
  simp [h1, h2]

theorem c4_stop_witness :
    (step .simulated initSys (0, .stop)).comp = initSys.comp :=
  (c4_stop_observable .simulated initSys 0).2 rfl rfl

/-- Claim C5, counterexample: two `stop()` calls from Idle fire
`onListeningChange(false)` twice in a row with no Idle⇄non-Idle
boundary crossing at all — refuting "fires exactly on boundary
crossings and never with the same value twice in a row". -/
theorem c5_duplicate_false_firings :
    notifications (run .simulated [(0, .stop), (1, .stop)])
      = [.listeningChange false, .listeningChange false]
    ∧ (run .simulated [(0, .stop), (1, .stop)]).comp = initSys.comp :=
  ⟨rfl, rfl⟩

/-- Claim C5, amended: `onListeningChange` is fired unconditionally per
call, not per boundary crossing: every enabled `start()` fires exactly
one `true`; every `stop()`, adapter result/error/end event and the
simulated phase-2 timer fires exactly one `false`; a disabled `start()`
and the phase-1 timer fire none.  Consecutive duplicate values are
therefore possible (see the counterexample). -/
theorem c5_per_call_firing :
    ∀ (b : Backend) (p : Bool) (t : String) (v : Option (List String))
      (m : Option String) (c : Nat),
      listeningNotes (startActions b true) = [true]
      ∧ listeningNotes (startActions b false) = []
      ∧ listeningNotes stopActions = [false]
      ∧ listeningNotes (onresultActions p t) = [false]
      ∧ listeningNotes (onerrorActions t) = [false]
      ∧ listeningNotes onendActions = [false]
      ∧ listeningNotes (onSpeechResultsActions v) = [false]
      ∧ listeningNotes (onSpeechErrorActions m) = [false]
      ∧ listeningNotes (nativeStartFailActions m) = [false]
      ∧ listeningNotes (timerActions .simPhase1 c) = []
      ∧ listeningNotes (timerActions .simPhase2 c) = [false] := by
  intro b p t v m c
  refine ⟨?_, rfl, rfl, ?_, rfl, rfl, ?_, rfl, rfl, rfl, rfl⟩
  · cases b <;> rfl
  · cases p <;> rfl
  · cases v with
    | none => rfl
    | some l =>
      cases l with
      | nil => rfl
      | cons y ys => simp [listeningNotes, onSpeechResultsActions]

/-- Claim C6: on the simulated path an enabled `start()` yields the
Listening state; the phase-1 timer is not yet due at 2999 ms and fires
at exactly 3000 ms, moving Listening → Processing; the phase-2 timer
fires 1000 ms later, delivering exactly one `onVoiceResult` whose
argument is the `choice`-th member of the fixed 6-phrase corpus. -/
theorem c6_simulated_timing :
    ∀ choice : Nat, choice < 6 →
      (run .simulated [(0, .start true)]).comp = ⟨true, false, none⟩
      ∧ (run .simulated [(0, .start true), (2999, .timerFire 0 choice)]).comp
          = ⟨true, false, none⟩
      ∧ (run .simulated [(0, .start true), (3000, .timerFire 0 choice)]).comp
          = ⟨false, true, none⟩
      ∧ notifications (run .simulated
          [(0, .start true), (3000, .timerFire 0 choice), (4000, .timerFire 0 choice)])
          = [.listeningChange true, .voiceResult (VOICE_RESPONSES.getD choice ""),
             .listeningChange false]
      ∧ VOICE_RESPONSES.getD choice "" ∈ VOICE_RESPONSES := by
  intro choice h
  refine ⟨rfl, rfl, rfl, ?_, ?_⟩
  · simp [run, step, runActions, applyAction, startActions, timerActions,
      notifications, initSys]
  · interval_cases choice <;> decide

theorem c6_simulated_timing_witness :
    VOICE_RESPONSES.getD 0 "" ∈ VOICE_RESPONSES :=
  (c6_simulated_timing 0 (by decide)).2.2.2.2

/-- Claim C7, counterexample: a native adapter error whose underlying
message is the empty string is replaced by `'Unknown error'` by the
`||` fallback (source line 73), so it surfaces as
`"Voice error: Unknown error"`, not as `"Voice error: " ++ ""` — the
claimed form fails for the detail `""`. -/
theorem c7_empty_detail_not_normalized :
    (run .native [(0, .start true), (1, .nativeError (some ""))]).comp.error
      = some "Voice error: Unknown error"
    ∧ getStatusText (run .native [(0, .start true), (1, .nativeError (some ""))]).comp
      = "Voice error: Unknown error"
    ∧ ("Voice error: Unknown error" : String) ≠ "Voice error: " ++ "" :=
  ⟨rfl, rfl, by decide⟩

/-- Claim C7, amended: for every non-empty detail `d`, each of the three
error paths (browser `onerror`, native `onSpeechError`, native start
failure) stores exactly `"Voice error: " ++ d` and surfaces it
unchanged as the status text; the native paths replace an empty or
absent underlying message with `"Unknown error"` first (see the
counterexample), while the browser path prefixes the detail verbatim. -/
theorem c7_error_normalization_amended :
    ∀ (d : String) (s : Sys) (now : Nat), d ≠ "" →
      ((runActions now (onerrorActions d) s).comp.error
          = some ("Voice error: " ++ d)
        ∧ getStatusText (runActions now (onerrorActions d) s).comp
          = "Voice error: " ++ d)
      ∧ ((runActions now (onSpeechErrorActions (some d)) s).comp.error
          = some ("Voice error: " ++ d)
        ∧ getStatusText (runActions now (onSpeechErrorActions (some d)) s).comp
          = "Voice error: " ++ d)
      ∧ ((runActions now (nativeStartFailActions (some d)) s).comp.error
          = some ("Voice error: " ++ d)
        ∧ getStatusText (runActions now (nativeStartFailActions (some d)) s).comp
          = "Voice error: " ++ d) := by
  intro d s now hd
  have hne := voiceErrorNeEmpty d
  refine ⟨⟨?_, ?_⟩, ⟨?_, ?_⟩, ⟨?_, ?_⟩⟩ <;>
    simp [runActions, applyAction, onerrorActions, onSpeechErrorActions,
      nativeStartFailActions, jsOrDefault, hd, getStatusText, jsTruthy,
      bne_iff_ne, hne]

theorem c7_error_normalization_witness :
    getStatusText
        (runActions 0 (onSpeechErrorActions (some "permission denied")) initSys).comp
      = "Voice error: " ++ "permission denied" :=
  (c7_error_normalization_amended "permission denied" initSys 0 (by decide)).2.1.2

/-- Claim C8: `getStatusText` (source lines 190–195) maps the state to
the status text in priority order: a stored (non-empty) error message
first, then `"Memproses..."` while processing, then `"Mendengarkan..."`
while listening, and `"Tekan untuk berbicara"` when idle.  (Every error
the component ever stores has the non-empty form `"Voice error: " ++ d`,
so the non-emptiness hypothesis covers all reachable error states.) -/
theorem c8_status_text_mapping :
    ∀ c : CompState,
      (∀ m : String, c.error = some m → m ≠ "" → getStatusText c = m)
      ∧ (c.error = none → c.isProcessing = true → getStatusText c = "Memproses...")
      ∧ (c.error = none → c.isProcessing = false → c.isListening = true →
          getStatusText c = "Mendengarkan...")
      ∧ (c.error = none → c.isProcessing = false → c.isListening = false →
          getStatusText c = "Tekan untuk berbicara") := by
  intro c
  obtain ⟨l, p, e⟩ := c
  refine ⟨?_, ?_, ?_, ?_⟩
  · intro m hm hne
    cases hm
    simp [getStatusText, jsTruthy, bne_iff_ne, hne]
  · intro he hp
    cases he
    cases hp
    simp [getStatusText, jsTruthy]
  · intro he hp hl
    cases he
    cases hp
    cases hl
    simp [getStatusText, jsTruthy]
  · intro he hp hl
    cases he
    cases hp
    cases hl
    simp [getStatusText, jsTruthy]

theorem c8_status_text_witness :
    getStatusText ⟨false, false, some "Voice error: permission denied"⟩
      = "Voice error: permission denied" :=
  (c8_status_text_mapping ⟨false, false, some "Voice error: permission denied"⟩).1
    "Voice error: permission denied" rfl (by decide)

/-- Claim C9, counterexample: `startListening` runs `setError(null)`
before the `isEnabled` guard (source lines 109–110), so a disabled
`start()` after an error clears the stored error message — refuting
"every component of its state (including any stored error message) is
unchanged" — although it fires no Notifier callback. -/
theorem c9_disabled_start_clears_error :
    (run .native [(0, .start true), (1, .nativeError (some "x"))]).comp.error
      = some "Voice error: x"
    ∧ (run .native
        [(0, .start true), (1, .nativeError (some "x")), (2, .start false)]).comp.error
      = none
    ∧ notifications (run .native
        [(0, .start true), (1, .nativeError (some "x")), (2, .start false)])
      = notifications (run .native [(0, .start true), (1, .nativeError (some "x"))]) :=
  ⟨rfl, rfl, rfl⟩

/-- Claim C9, amended: a disabled `start()` fires no callback, schedules
nothing, and leaves the listening/processing flags unchanged — its only
effect is clearing any stored error message (`setError(null)` precedes
the enabled guard); while disabled the rendered status is the fixed
string `"Voice tidak tersedia"` instead of the computed status text. -/
theorem c9_disabled_start_amended :
    ∀ (b : Backend) (s : Sys) (now : Nat),
      step b s (now, .start false) = { s with comp := { s.comp with error := none } }
      ∧ ∀ c : CompState, displayedStatus false c = "Voice tidak tersedia" := by
  intro b s now
  exact ⟨rfl, fun c => rfl⟩

/-- Claim C10: callback ordering differs across backends.  The
simulated phase-2 timer invokes `onVoiceResult` first — recorded while
`isProcessing` is still `true` — and `onListeningChange(false)` only
afterwards (source lines 148–151); the browser `onresult` and native
`onSpeechResults` handlers invoke `onListeningChange(false)` strictly
before `onVoiceResult` (source lines 122–129 and 62–69). -/
theorem c10_callback_ordering :
    ∀ (s : Sys) (now choice : Nat) (t x : String) (xs : List String),
      (s.comp.isProcessing = true →
        (runActions now (timerActions .simPhase2 choice) s).out
          = s.out ++ [(.voiceResult (VOICE_RESPONSES.getD choice ""),
                        ⟨s.comp.isListening, true, s.comp.error⟩),
                      (.listeningChange false,
                        ⟨s.comp.isListening, false, s.comp.error⟩)])
      ∧ ((runActions now (onresultActions true t) s).out
          = s.out ++ [(.listeningChange false, ⟨false, false, s.comp.error⟩),
                      (.voiceResult t, ⟨false, false, s.comp.error⟩)])
      ∧ ((runActions now (onSpeechResultsActions (some (x :: xs))) s).out
          = s.out ++ [(.listeningChange false, ⟨false, false, s.comp.error⟩),
                      (.voiceResult x, ⟨false, false, s.comp.error⟩)]) := by
  intro s now choice t x xs
  obtain ⟨⟨l, p, e⟩, tm, outs⟩ := s
  refine ⟨?_, ?_, ?_⟩
  · intro h
    cases h
    simp [runActions, applyAction, timerActions]
  · simp [runActions, applyAction, onresultActions]
  · simp [runActions, applyAction, onSpeechResultsActions]

theorem c10_callback_ordering_witness :
    (runActions 0 (timerActions .simPhase2 0) ⟨⟨false, true, none⟩, [], []⟩).out
      = [(.voiceResult (VOICE_RESPONSES.getD 0 ""), ⟨false, true, none⟩),
         (.listeningChange false, ⟨false, false, none⟩)] :=
  (c10_callback_ordering ⟨⟨false, true, none⟩, [], []⟩ 0 0 "" "" []).1 rfl

end BengkelVoice
